import Mathlib

/-!
Verification of the course-materials RAG core against its specification.

The development shallowly embeds the generation orchestrator
(`backend/ai_generator.py`) and — where the repository ships only tests for a
module — models the missing module from the specification text
(`SessionManager`, `VectorStore`, `ToolManager`).  All definitions are
executable so that concrete scenarios can be settled by `decide`/`rfl`.
-/

namespace RagCore

/-! ## Generation-backend data model (anthropic message API, as consumed by
`ai_generator.py`): responses carry a stop reason and a list of content
blocks, each either a plain text block or a tool-use request. -/

/-- One content block of a backend response: a text block (carrying a `text`
attribute) or a tool-use request (`id`, `name`, keyword-argument `input`). -/
inductive ContentBlock where
  | text (s : String)
  | toolUse (id : String) (name : String) (input : List (String × String))
deriving Repr, DecidableEq

/-- A generation-backend response: stop indicator plus ordered content blocks. -/
structure Response where
  stopReason : String
  content : List ContentBlock
deriving Repr, DecidableEq

/-- A tool-result entry as built by `_handle_tool_execution`:
`{"type": "tool_result", "tool_use_id": ..., "content": ..., "is_error"?}`. -/
structure ToolResult where
  toolUseId : String
  content : String
  isError : Bool
deriving Repr, DecidableEq

/-- Message content: the user query string, an assistant response's content
blocks, or a list of tool results sent back as a user message. -/
inductive MsgContent where
  | str (s : String)
  | blocks (bs : List ContentBlock)
  | results (rs : List ToolResult)
deriving Repr, DecidableEq

/-- One entry of the `messages` list of an API request. -/
structure Msg where
  role : String
  content : MsgContent
deriving Repr, DecidableEq

/-- A tool-catalog entry (`{name, description, input_schema}` dict) as passed
through opaquely by the orchestrator. -/
structure ToolDef where
  name : String
  description : String
  schemaProperties : List (String × String)
  schemaRequired : List String
deriving Repr, DecidableEq

/-- One backend API request as issued by `self.client.messages.create`:
the fields the orchestration logic actually varies.  `tools = none` models a
request in which no `"tools"` key is present. -/
structure Request where
  messages : List Msg
  system : String
  tools : Option (List ToolDef)
deriving Repr, DecidableEq

/-- The duck-typed `tool_manager` as used by the orchestrator: an
`execute_tool(name, **kwargs) → str` entry point.  `Except.error e` models
`execute_tool` raising an exception whose string form is `e`. -/
structure ToolExecutor where
  executeTool : String → List (String × String) → Except String String

/-- Python truthiness of an `Optional[str]`: `None` and `""` are falsy. -/
def truthyStr : Option String → Bool
  | none => false
  | some s => s ≠ ""

/-- Python truthiness of an `Optional[List]`: `None` and `[]` are falsy. -/
def truthyList {α : Type} : Option (List α) → Bool
  | none => false
  | some l => !l.isEmpty

/-! ## `ai_generator.py` embedded -/

/-- The static system prompt `AIGenerator.SYSTEM_PROMPT` (lines 9–41). -/
def SYSTEM_PROMPT : String :=
  " You are an AI assistant specialized in course materials and educational content with access to search and outline tools.\n" ++
  "\n" ++
  "Search Tool Usage:\n" ++
  "- Use the search tool **only** for questions about specific course content or detailed educational materials\n" ++
  "- Synthesize search results into accurate, fact-based responses\n" ++
  "- If search yields no results, state this clearly without offering alternatives\n" ++
  "\n" ++
  "Multi-Step Reasoning:\n" ++
  "- For complex queries requiring multiple pieces of information, you may use tools sequentially\n" ++
  "- First tool call: gather initial information\n" ++
  "- Based on results, you may make ONE additional tool call if needed\n" ++
  "- Maximum 2 tool rounds per query - plan your searches efficiently\n" ++
  "\n" ++
  "Outline Tool Usage:\n" ++
  "- Use the outline tool for questions about course structure, lesson lists, or \"what lessons are in this course\"\n" ++
  "- Returns course title, course link, and complete lesson list with numbers and titles\n" ++
  "- Present the outline in a clear, organized format\n" ++
  "\n" ++
  "Response Protocol:\n" ++
  "- **General knowledge questions**: Answer using existing knowledge without searching\n" ++
  "- **Course-specific questions**: Search first, then answer\n" ++
  "- **Course outline/structure questions**: Use the outline tool, then present the full course title, course link, and all lesson numbers with titles\n" ++
  "- **No meta-commentary**:\n" ++
  " - Provide direct answers only â€” no reasoning process, search explanations, or question-type analysis\n" ++
  " - Do not mention \"based on the search results\"\n" ++
  "\n" ++
  "All responses must be:\n" ++
  "1. **Brief, Concise and focused** - Get to the point quickly\n" ++
  "2. **Educational** - Maintain instructional value\n" ++
  "3. **Clear** - Use accessible language\n" ++
  "4. **Example-supported** - Include relevant examples when they aid understanding\n" ++
  "Provide only the direct answer to what was asked.\n"

/-- Modelled from the spec: `config.py` is not among the provided sources
(only `ai_generator.py` and the test suite are); the specification fixes the
round budget `MAX_ROUNDS` at 2 in the reference behavior
(`config.MAX_TOOL_ROUNDS`). -/
def MAX_TOOL_ROUNDS : Nat := 2

/-- Lines 71–76: build the system content; the `"Previous conversation"`
section is appended exactly when `conversation_history` is truthy (a
present, non-empty string). -/
def buildSystemContent (conversationHistory : Option String) : String :=
  if truthyStr conversationHistory then
    SYSTEM_PROMPT ++ "\n\nPrevious conversation:\n" ++ conversationHistory.getD ""
  else
    SYSTEM_PROMPT

/-- Lines 180–185, `_extract_text_from_response`: scan the content for the
first block with a `text` attribute; return `""` if none exists. -/
def extractText : List ContentBlock → String
  | [] => ""
  | ContentBlock.text s :: _ => s
  | ContentBlock.toolUse _ _ _ :: rest => extractText rest

def extractTextFromResponse (r : Response) : String :=
  extractText r.content

/-- Line 98, `response.content[0].text` on the zero-round path:
`Except.error` models the uncaught Python exception (IndexError on empty
content, AttributeError when the first block has no `text` attribute). -/
def firstBlockText (r : Response) : Except String String :=
  match r.content with
  | [] => Except.error "IndexError: list index out of range"
  | ContentBlock.text s :: _ => Except.ok s
  | ContentBlock.toolUse _ _ _ :: _ =>
      Except.error "AttributeError: ToolUseBlock object has no attribute text"

/-- Lines 128–150: the per-round tool-execution loop.  Returns the collected
`tool_results` (in block order) and the final value of `execution_error`
(the exception text of the last failing call, `none` when none failed).
Each call is isolated: a raising `execute_tool` yields an error-tagged
entry and the loop continues with the remaining blocks. -/
def executeToolCalls (tm : ToolExecutor) : List ContentBlock → List ToolResult × Option String
  | [] => ([], none)
  | ContentBlock.text _ :: rest => executeToolCalls tm rest
  | ContentBlock.toolUse id name input :: rest =>
    let r := executeToolCalls tm rest
    match tm.executeTool name input with
    | Except.ok result => (⟨id, result, false⟩ :: r.1, r.2)
    | Except.error e =>
        (⟨id, "Tool execution error: " ++ e, true⟩ :: r.1,
         if r.2.isSome then r.2 else some e)

/-- Decides whether a block is a tool-use request (`content_block.type == "tool_use"`). -/
def isToolUseBlock : ContentBlock → Bool
  | ContentBlock.toolUse _ _ _ => true
  | ContentBlock.text _ => false

/-- Lines 124–154 of one loop iteration: append the assistant's tool-use
content, execute the calls, and append the collected tool results as a
single user message (skipped when there are none). -/
def roundMessages (tm : ToolExecutor) (messages : List Msg) (current : Response) :
    List Msg :=
  let messages1 := messages ++ [⟨"assistant", MsgContent.blocks current.content⟩]
  let r := executeToolCalls tm current.content
  if r.1.isEmpty then messages1 else messages1 ++ [⟨"user", MsgContent.results r.1⟩]

/-- Lines 156–169 of one loop iteration: the next API request.  With
`fuelLeft` iterations remaining after this one, `can_use_more_tools =
(round_count < MAX_TOOL_ROUNDS) and (execution_error is None)` is
`0 < fuelLeft && no call errored`; tools are attached only if that holds and
the base parameters carried a truthy catalog. -/
def roundRequest (tm : ToolExecutor) (system : String) (baseTools : Option (List ToolDef))
    (messages : List Msg) (current : Response) (fuelLeft : Nat) : Request :=
  let canUseMoreTools := decide (0 < fuelLeft) && ((executeToolCalls tm current.content).2).isNone
  ⟨roundMessages tm messages current, system,
    if canUseMoreTools && truthyList baseTools then baseTools else none⟩

/-- Lines 117–178, the `while round_count < config.MAX_TOOL_ROUNDS` loop of
`_handle_tool_execution`, with `fuel = MAX_TOOL_ROUNDS - round_count`
remaining iterations.  `backend i` is the response to the `i`-th
`messages.create` call of the whole query (the orchestrator's first call is
index 0); alongside the final text the function returns the trace of
requests it issued, in order. -/
def toolLoop (backend : Nat → Response) (tm : ToolExecutor) (system : String)
    (baseTools : Option (List ToolDef)) :
    Nat → List Msg → Response → Nat → String × List Request
  | 0, _, current, _ => (extractTextFromResponse current, [])
  | fuel + 1, messages, current, callIdx =>
    let req := roundRequest tm system baseTools messages current fuel
    let nextResponse := backend callIdx
    if nextResponse.stopReason ≠ "tool_use" then
      (extractTextFromResponse nextResponse, [req])
    else
      let rest := toolLoop backend tm system baseTools fuel
        (roundMessages tm messages current) nextResponse (callIdx + 1)
      (rest.1, req :: rest.2)

/-- Lines 100–178, `_handle_tool_execution`: enter the round loop with the
copied base messages, `round_count = 0`, and the initial tool-use response;
the next backend call is call index 1. -/
def handleToolExecution (backend : Nat → Response) (maxRounds : Nat) (tm : ToolExecutor)
    (baseMessages : List Msg) (system : String) (baseTools : Option (List ToolDef))
    (initialResponse : Response) : String × List Request :=
  toolLoop backend tm system baseTools maxRounds baseMessages initialResponse 1

/-- The first API request composed by `generate_response` (lines 78–88):
sole user message = the query, system content per `buildSystemContent`,
tools attached (with auto tool choice) only when the catalog is truthy. -/
def firstRequest (query : String) (conversationHistory : Option String)
    (tools : Option (List ToolDef)) : Request :=
  ⟨[⟨"user", MsgContent.str query⟩], buildSystemContent conversationHistory,
    if truthyList tools then tools else none⟩

/-- Lines 54–98, `generate_response`.  Returns the final text (`Except.error`
models an uncaught Python exception) together with the ordered trace of all
backend requests issued.  The backend itself is total here: backend faults
are outside the claims under verification. -/
def generate_response (backend : Nat → Response) (maxRounds : Nat) (query : String)
    (conversationHistory : Option String) (tools : Option (List ToolDef))
    (toolManager : Option ToolExecutor) : Except String String × List Request :=
  let req := firstRequest query conversationHistory tools
  let response := backend 0
  match toolManager with
  | some tm =>
    if response.stopReason = "tool_use" then
      let r := handleToolExecution backend maxRounds tm req.messages req.system req.tools response
      (Except.ok r.1, req :: r.2)
    else
      (firstBlockText response, [req])
  | none => (firstBlockText response, [req])

/-! ## Conversation Memory (`session_manager.py`) -/

/-- A role-tagged conversation message (the `Message` dataclass). -/
structure Message where
  role : String
  content : String
deriving Repr, DecidableEq

/-- Modelled from the spec: `session_manager.py` is not among the provided
sources (only its test suite is).  Per spec §4.3 the manager keeps a
process-wide session counter and a per-session ordered message list; the
session store is modelled as a lookup function. -/
structure SessionManager where
  maxHistory : Nat
  sessionCounter : Nat
  sessions : String → Option (List Message)

def SessionManager.new (maxHistory : Nat) : SessionManager :=
  ⟨maxHistory, 0, fun _ => none⟩

/-- Modelled from the spec (§4.3 `create_session`): assign the next
identifier from the monotonically increasing counter, formatted
`"session_{n}"` starting at 1, and register an empty message list. -/
def SessionManager.create_session (sm : SessionManager) : String × SessionManager :=
  let n := sm.sessionCounter + 1
  let sid := "session_" ++ toString n
  (sid, { sm with
          sessionCounter := n
          sessions := fun s => if s = sid then some [] else sm.sessions s })

/-- Modelled from the spec (§4.3 `add_message` and the trimming policy):
append a message (lazily creating an unknown session), then, if the stored
count exceeds `2 × max_history`, drop the oldest messages until exactly
`2 × max_history` remain.  Trimming runs on every mutation. -/
def SessionManager.add_message (sm : SessionManager) (sid role content : String) :
    SessionManager :=
  let appended := (sm.sessions sid).getD [] ++ [⟨role, content⟩]
  let trimmed :=
    if 2 * sm.maxHistory < appended.length then
      appended.drop (appended.length - 2 * sm.maxHistory)
    else appended
  { sm with sessions := fun s => if s = sid then some trimmed else sm.sessions s }

/-- Modelled from the spec (§4.3 `add_exchange`): a user message then an
assistant message, as one logical unit. -/
def SessionManager.add_exchange (sm : SessionManager) (sid userText assistantText : String) :
    SessionManager :=
  (sm.add_message sid "user" userText).add_message sid "assistant" assistantText

/-- Modelled from the spec (§4.3 `get_conversation_history`): `none` for an
unknown session or one with no messages; otherwise each message rendered as
`"{Role}: {content}"` with the role capitalized, in order, joined by
newlines. -/
def SessionManager.get_conversation_history (sm : SessionManager) (sid : String) :
    Option String :=
  match sm.sessions sid with
  | none => none
  | some [] => none
  | some msgs =>
      some (String.intercalate "\n"
        (msgs.map fun m => m.role.capitalize ++ ": " ++ m.content))

/-! ## Retrieval Engine (`vector_store.py`) -/

/-- Substring containment on strings, via character lists. -/
def containsSubstr (haystack needle : String) : Bool :=
  (List.range (haystack.length + 1)).any fun i =>
    needle.toList.isPrefixOf (haystack.toList.drop i)

/-- The `SearchResults` record (spec §3): documents, metadata and distances aligned
index-for-index, plus an optional error.  Metadata records are
`(course_title, lesson_number)` pairs; distances are modelled as rank
positions. -/
structure SearchResults where
  documents : List String
  metadata : List (String × Option Int)
  distances : List Nat
  error : Option String
deriving Repr, DecidableEq

def SearchResults.empty (errorMsg : String) : SearchResults := ⟨[], [], [], some errorMsg⟩

def SearchResults.is_empty (r : SearchResults) : Bool := r.documents.isEmpty

inductive FilterValue where
  | str (s : String)
  | num (n : Int)
deriving Repr, DecidableEq

/-- A ChromaDB `where` filter: a single field-equality dict, or an `$and`
list of conditions. -/
inductive ChromaFilter where
  | eq (field : String) (value : FilterValue)
  | and (conds : List ChromaFilter)

/-- Modelled from the spec (§4.1 step 2, §8 filter construction,
`_build_filter`): no filter if neither given; a single equality dict if
exactly one given; `$and` of exactly the two equality conditions if both
given. -/
def build_filter (courseTitle : Option String) (lessonNumber : Option Int) :
    Option ChromaFilter :=
  match courseTitle, lessonNumber with
  | none, none => none
  | some c, none => some (ChromaFilter.eq "course_title" (FilterValue.str c))
  | none, some n => some (ChromaFilter.eq "lesson_number" (FilterValue.num n))
  | some c, some n =>
      some (ChromaFilter.and
        [ChromaFilter.eq "course_title" (FilterValue.str c),
         ChromaFilter.eq "lesson_number" (FilterValue.num n)])

/-- One stored content chunk with its metadata. -/
structure Chunk where
  document : String
  courseTitle : String
  lessonNumber : Option Int
deriving Repr, DecidableEq

/-- Modelled from the spec: the Retrieval Engine's state — the configured
default result cap (`max_results`), the course-title catalog, and the
content index. -/
structure VectorStore where
  maxResults : Nat
  courseTitles : List String
  chunks : List Chunk
deriving Repr, DecidableEq

/-- Evaluate a ChromaDB equality/`$and` filter against a chunk's metadata. -/
def evalFilter : ChromaFilter → Chunk → Bool
  | ChromaFilter.eq f v, c =>
    match f, v with
    | "course_title", FilterValue.str s => c.courseTitle = s
    | "lesson_number", FilterValue.num n => c.lessonNumber = some n
    | _, _ => false
  | ChromaFilter.and conds, c => conds.attach.all fun p => evalFilter p.1 c
termination_by f _ => sizeOf f
decreasing_by
  simp_wf
  have := List.sizeOf_lt_of_mem p.2
  omega

def matchesFilter : Option ChromaFilter → Chunk → Bool
  | none, _ => true
  | some f, c => evalFilter f c

/-- Modelled from the spec: ChromaDB's nearest-neighbor query, approximated
at the granularity the claims exercise — documents containing the query
string rank closest, the rest follow; the top `n_results` are returned.
An `n_results` of zero therefore yields no hits even when matching content
exists (the documented boundary behavior, spec §4.1 step 3). -/
def queryIndex (vs : VectorStore) (query : String) (filt : Option ChromaFilter)
    (nResults : Nat) : List Chunk :=
  let candidates := vs.chunks.filter (fun c => matchesFilter filt c)
  let hits := candidates.filter fun c => containsSubstr c.document query
  let misses := candidates.filter fun c => !containsSubstr c.document query
  (hits ++ misses).take nResults

/-- Modelled from the spec (§4.1 `_resolve_course_name`): semantic
nearest-match against the title catalog, approximated by substring
containment; `none` when the catalog is empty or nothing matches. -/
def VectorStore.resolve_course_name (vs : VectorStore) (courseName : String) :
    Option String :=
  vs.courseTitles.find? fun t => containsSubstr t courseName

/-- Modelled from the spec (§4.1 `search`): resolve the course name (early
exit with an error result on failure), build the filter, query the index
with the effective cap (`limit` if provided, else the configured default),
and wrap the raw hits with `error = none`. -/
def VectorStore.search (vs : VectorStore) (query : String)
    (courseName : Option String) (lessonNumber : Option Int)
    (limit : Option Nat) : SearchResults :=
  let resolved : Except String (Option String) :=
    match courseName with
    | none => Except.ok none
    | some cn =>
      match vs.resolve_course_name cn with
      | some t => Except.ok (some t)
      | none => Except.error ("No course found matching '" ++ cn ++ "'")
  match resolved with
  | Except.error msg => SearchResults.empty msg
  | Except.ok courseTitle =>
    let filt := build_filter courseTitle lessonNumber
    let cap := limit.getD vs.maxResults
    let top := queryIndex vs query filt cap
    ⟨top.map Chunk.document,
     top.map (fun c => (c.courseTitle, c.lessonNumber)),
     List.range top.length,
     none⟩

/-! ## Tool Registry (`search_tools.py`) -/

/-- A citation (spec §6 citation contract): `{title, url?}`. -/
structure Source where
  title : String
  url : Option String
deriving Repr, DecidableEq

/-- Modelled from the spec (§4.2, §6 tool contract): a registered capability
with its declared name, description, object schema, and its transient
citation buffer `last_sources`. -/
structure RegisteredTool where
  name : String
  description : String
  schemaProperties : List (String × String)
  schemaRequired : List String
  lastSources : List Source
deriving Repr, DecidableEq

/-- Modelled from the spec: the name-indexed catalog of registered tools,
kept in registration order. -/
structure ToolManager where
  tools : List RegisteredTool
deriving Repr, DecidableEq

/-- Modelled from the spec (§4.2 `get_last_sources`): the citation buffer of
the first registered tool whose buffer is non-empty (the tool that most
recently populated it, in the one-tool-fires-per-round design), or `[]`. -/
def ToolManager.get_last_sources (tm : ToolManager) : List Source :=
  match tm.tools.find? (fun t => !t.lastSources.isEmpty) with
  | some t => t.lastSources
  | none => []

/-- Modelled from the spec (§4.2 `reset_sources`): clear every registered
tool's citation buffer. -/
def ToolManager.reset_sources (tm : ToolManager) : ToolManager :=
  ⟨tm.tools.map fun t => { t with lastSources := [] }⟩

/-- A tool firing during a query overwrites its own citation buffer
(spec §9: tools write citations to their own buffer). -/
def ToolManager.recordSources (tm : ToolManager) (name : String)
    (sources : List Source) : ToolManager :=
  ⟨tm.tools.map fun t => if t.name = name then { t with lastSources := sources } else t⟩

/-- The buffer writes performed by all tool firings of one query, applied in
order. -/
def applyWrites : ToolManager → List (String × List Source) → ToolManager
  | tm, [] => tm
  | tm, w :: rest => applyWrites (tm.recordSources w.1 w.2) rest

/-- Modelled from the spec (§2 control flow, §4.2): one top-level query —
the tools fired during generation populate their buffers, the caller reads
the citations for the answer, then invokes `reset_sources()` exactly once
after the answer text is extracted. -/
def runQuery (tm : ToolManager) (writes : List (String × List Source)) :
    List Source × ToolManager :=
  let tm1 := applyWrites tm writes
  (tm1.get_last_sources, tm1.reset_sources)

/-! ## Derived notions and concrete scenarios used by the theorems -/

/-- Decides whether a block bears text (Python `hasattr(block, 'text')`). -/
def isTextBlock : ContentBlock → Bool
  | ContentBlock.text _ => true
  | ContentBlock.toolUse _ _ _ => false

/-- The tool-result entry the round loop produces for one tool-use block. -/
def resultEntry (tm : ToolExecutor) (id name : String)
    (input : List (String × String)) : ToolResult :=
  match tm.executeTool name input with
  | Except.ok r => ⟨id, r, false⟩
  | Except.error e => ⟨id, "Tool execution error: " ++ e, true⟩

/-- The message list stored for a session (empty for an unknown session). -/
def sessionMessages (sm : SessionManager) (sid : String) : List Message :=
  (sm.sessions sid).getD []

/-- A backend whose every response requests tool use (the
`test_max_rounds_enforced` scenario). -/
def alwaysToolUseBackend : Nat → Response := fun i =>
  ⟨"tool_use", [ContentBlock.toolUse ("t" ++ toString i) "search_course_content"
      [("query", "q" ++ toString i)]]⟩

/-- An executor that always succeeds. -/
def okExecutor : ToolExecutor := ⟨fun _ _ => Except.ok "Search results"⟩

/-- An executor whose `search_course_content` raises `Exception("Tool failed")`
and whose other tools succeed (the `test_tool_execution_error_handled`
scenario, extended with a succeeding sibling call). -/
def mixedExecutor : ToolExecutor :=
  ⟨fun name _ =>
    if name = "search_course_content" then Except.error "Tool failed"
    else Except.ok "Result 2"⟩

/-- A demo tool catalog entry list. -/
def toolCatalogDemo : List ToolDef :=
  [⟨"search_course_content", "Search course materials",
    [("query", "string"), ("course_name", "string"), ("lesson_number", "integer")],
    ["query"]⟩]

/-- Round 1 requests two tool calls; the next response is terminal. -/
def errRoundBackend : Nat → Response := fun i =>
  if i = 0 then
    ⟨"tool_use",
     [ContentBlock.toolUse "t1" "search_course_content" [("query", "q1")],
      ContentBlock.toolUse "t2" "get_course_outline" [("course_name", "Test Course")]]⟩
  else ⟨"end_turn", [ContentBlock.text "Response after error"]⟩

/-- A terminal response carrying no content blocks at all. -/
def noTextBackend : Nat → Response := fun _ => ⟨"end_turn", []⟩

/-- A terminal response whose sole block is a text block. -/
def textBackend : Nat → Response :=
  fun _ => ⟨"end_turn", [ContentBlock.text "Direct answer text"]⟩

/-- The §8 session scenario: `max_history = 2`, five exchanges
`(Q0,A0) … (Q4,A4)` against one session. -/
def demoSM : String × SessionManager :=
  let p := (SessionManager.new 2).create_session
  (p.1, (List.range 5).foldl
    (fun acc i => acc.add_exchange p.1 ("Q" ++ toString i) ("A" ++ toString i)) p.2)

/-- The single chunk of the `MAX_RESULTS=0` bug scenario
(`test_search_with_max_results_zero_returns_empty`). -/
def testChunk : Chunk := ⟨"Test content about Python programming", "Test", some 0⟩

/-- The store of the `MAX_RESULTS` bug scenario. -/
def testStore : VectorStore := ⟨0, ["Test Course"], [testChunk]⟩

/-- A two-tool registry in which the search tool's buffer still holds a
citation from an earlier query. -/
def registryDemo : ToolManager :=
  ⟨[⟨"search_course_content", "Search course materials", [("query", "string")], ["query"],
      [⟨"Stale Source", none⟩]⟩,
    ⟨"get_course_outline", "Course outline", [("course_name", "string")], ["course_name"],
      []⟩]⟩

/-- The citation produced during the second demo query. -/
def freshSource : Source := ⟨"Test Course", some "https://example.com/course"⟩

/-! ## Helper lemmas about the round loop and tool execution -/

theorem executeToolCalls_length (tm : ToolExecutor) (bs : List ContentBlock) :
    (executeToolCalls tm bs).1.length = bs.countP isToolUseBlock := by
  induction bs with
  | nil => rfl
  | cons b rest ih =>
    cases b with
    | text s => simpa [executeToolCalls, isToolUseBlock, List.countP_cons] using ih
    | toolUse id name input =>
      simp only [executeToolCalls]
      cases h : tm.executeTool name input <;>
        simp [isToolUseBlock, List.countP_cons, ih, h]

theorem executeToolCalls_mem (tm : ToolExecutor) {bs : List ContentBlock}
    {id name : String} {input : List (String × String)}
    (hmem : ContentBlock.toolUse id name input ∈ bs) :
    resultEntry tm id name input ∈ (executeToolCalls tm bs).1 := by
  induction bs with
  | nil => cases hmem
  | cons b rest ih =>
    cases hmem with
    | head =>
      simp only [executeToolCalls, resultEntry]
      cases h : tm.executeTool name input <;> simp [h]
    | tail _ h' =>
      cases b with
      | text s => simpa [executeToolCalls] using ih h'
      | toolUse i2 n2 inp2 =>
        simp only [executeToolCalls]
        cases h : tm.executeTool n2 inp2 <;> simp [ih h', h]

theorem executeToolCalls_error_isSome (tm : ToolExecutor) {bs : List ContentBlock}
    {id name : String} {input : List (String × String)} {e : String}
    (hmem : ContentBlock.toolUse id name input ∈ bs)
    (herr : tm.executeTool name input = Except.error e) :
    ((executeToolCalls tm bs).2).isSome = true := by
  induction bs with
  | nil => cases hmem
  | cons b rest ih =>
    cases hmem with
    | head =>
      simp only [executeToolCalls, herr]
      cases h2 : (executeToolCalls tm rest).2 <;> simp [h2]
    | tail _ h' =>
      cases b with
      | text s => simpa [executeToolCalls] using ih h'
      | toolUse i2 n2 inp2 =>
        simp only [executeToolCalls]
        cases h : tm.executeTool n2 inp2 with
        | ok r => simpa [h] using ih h'
        | error e2 => cases h2 : (executeToolCalls tm rest).2 <;> simp [h, h2]

theorem toolLoop_trace_length (backend : Nat → Response) (tm : ToolExecutor)
    (system : String) (baseTools : Option (List ToolDef))
    (h : ∀ i, (backend i).stopReason = "tool_use") :
    ∀ (fuel : Nat) (messages : List Msg) (current : Response) (callIdx : Nat),
      (toolLoop backend tm system baseTools fuel messages current callIdx).2.length = fuel := by
  intro fuel
  induction fuel with
  | zero => intro m c i; rfl
  | succ f ih =>
    intro m c i
    simp [toolLoop, h i, ih]

theorem getLast?_cons_of_ne_nil {α : Type} (a : α) {l : List α} (hl : l ≠ []) :
    (a :: l).getLast? = l.getLast? := by
  cases l with
  | nil => cases hl rfl
  | cons b t => rfl

theorem toolLoop_trace_succ (backend : Nat → Response) (tm : ToolExecutor)
    (system : String) (baseTools : Option (List ToolDef)) (f : Nat)
    (messages : List Msg) (current : Response) (callIdx : Nat)
    (h : (backend callIdx).stopReason = "tool_use") :
    (toolLoop backend tm system baseTools (f + 1) messages current callIdx).2
      = roundRequest tm system baseTools messages current f ::
        (toolLoop backend tm system baseTools f (roundMessages tm messages current)
          (backend callIdx) (callIdx + 1)).2 := by
  simp [toolLoop, h]

theorem toolLoop_trace_last (backend : Nat → Response) (tm : ToolExecutor)
    (system : String) (baseTools : Option (List ToolDef))
    (h : ∀ i, (backend i).stopReason = "tool_use") :
    ∀ (fuel : Nat), 0 < fuel → ∀ (messages : List Msg) (current : Response) (callIdx : Nat),
      ((toolLoop backend tm system baseTools fuel messages current callIdx).2.getLast?).map
          Request.tools = some none := by
  intro fuel
  induction fuel with
  | zero => omega
  | succ f ih =>
    intro _ m c i
    rcases Nat.eq_zero_or_pos f with hf | hf'
    · subst hf
      simp [toolLoop, h i, roundRequest]
    · have hne : (toolLoop backend tm system baseTools f (roundMessages tm m c)
          (backend i) (i + 1)).2 ≠ [] := by
        intro hnil
        have hl := toolLoop_trace_length backend tm system baseTools h f
          (roundMessages tm m c) (backend i) (i + 1)
        rw [hnil] at hl
        simp at hl
        omega
      rw [toolLoop_trace_succ backend tm system baseTools f m c i (h i),
          getLast?_cons_of_ne_nil _ hne]
      exact ih hf' _ _ _

theorem toolLoop_fst_of_terminal (backend : Nat → Response) (tm : ToolExecutor)
    (system : String) (baseTools : Option (List ToolDef)) (f : Nat)
    (messages : List Msg) (current : Response) (callIdx : Nat)
    (h1 : (backend callIdx).stopReason ≠ "tool_use") :
    (toolLoop backend tm system baseTools (f + 1) messages current callIdx).1
      = extractTextFromResponse (backend callIdx) := by
  simp [toolLoop, h1]

theorem generate_response_trace_head (backend : Nat → Response) (maxRounds : Nat)
    (query : String) (history : Option String) (tools : Option (List ToolDef))
    (tmOpt : Option ToolExecutor) :
    ((generate_response backend maxRounds query history tools tmOpt).2).head?
      = some (firstRequest query history tools) := by
  simp only [generate_response]
  cases tmOpt with
  | none => rfl
  | some tm =>
    by_cases hc : (backend 0).stopReason = "tool_use" <;> simp [hc]

theorem get?_two_of_length_three {α : Type} {l : List α} (h : l.length = 3) :
    l.get? 2 = l.getLast? := by
  cases l with
  | nil => simp at h
  | cons a t =>
    cases t with
    | nil => simp at h
    | cons b t2 =>
      cases t2 with
      | nil => simp at h
      | cons c t3 =>
        cases t3 with
        | nil => rfl
        | cons d t4 => simp at h

theorem extractText_all_non_text {l : List ContentBlock}
    (h : ∀ b ∈ l, isTextBlock b = false) : extractText l = "" := by
  induction l with
  | nil => rfl
  | cons b t ih =>
    cases b with
    | text s =>
      have := h _ (List.mem_cons_self _ _)
      simp [isTextBlock] at this
    | toolUse i n inp =>
      exact ih fun b hb => h b (List.mem_cons_of_mem _ hb)

theorem extractText_first_text {pre : List ContentBlock} (s : String)
    (post : List ContentBlock) (hpre : ∀ b ∈ pre, isTextBlock b = false) :
    extractText (pre ++ ContentBlock.text s :: post) = s := by
  induction pre with
  | nil => rfl
  | cons b t ih =>
    cases b with
    | text s2 =>
      have := hpre _ (List.mem_cons_self _ _)
      simp [isTextBlock] at this
    | toolUse i n inp =>
      simpa [extractText] using ih fun b hb => hpre b (List.mem_cons_of_mem _ hb)

theorem isEmpty_false_of_mem {α : Type} {a : α} {l : List α} (h : a ∈ l) :
    l.isEmpty = false := by
  cases l with
  | nil => cases h
  | cons b t => rfl

theorem mem_take_cons_of_pos {α : Type} (a : α) (l : List α) {n : Nat} (hn : 0 < n) :
    a ∈ (a :: l).take n := by
  cases n with
  | zero => omega
  | succ m => simp [List.take_succ_cons]

theorem resultEntry_error {tm : ToolExecutor} {id name : String}
    {input : List (String × String)} {e : String}
    (h : tm.executeTool name input = Except.error e) :
    resultEntry tm id name input = ⟨id, "Tool execution error: " ++ e, true⟩ := by
  simp [resultEntry, h]

theorem resultEntry_ok {tm : ToolExecutor} {id name : String}
    {input : List (String × String)} {r : String}
    (h : tm.executeTool name input = Except.ok r) :
    resultEntry tm id name input = ⟨id, r, false⟩ := by
  simp [resultEntry, h]

/-! ## Claims about the generation orchestrator -/

/-- C1: with the round budget `MAX_TOOL_ROUNDS` (value 2), a generation
backend whose every response requests tool use makes `generate_response`
issue exactly `MAX_TOOL_ROUNDS + 1` (= 3) backend calls in total, and the
final call — the one at index `MAX_TOOL_ROUNDS` of the request trace — is
made without the tool catalog, for every catalog, tool manager, query and
conversation history. -/
theorem claim_C1_max_rounds_budget (backend : Nat → Response) (tm : ToolExecutor)
    (tools : Option (List ToolDef)) (query : String) (history : Option String)
    (h : ∀ i, (backend i).stopReason = "tool_use") :
    (generate_response backend MAX_TOOL_ROUNDS query history tools (some tm)).2.length
        = MAX_TOOL_ROUNDS + 1
    ∧ ((generate_response backend MAX_TOOL_ROUNDS query history tools (some tm)).2.get?
        MAX_TOOL_ROUNDS).map Request.tools = some none := by
  have hgr : (generate_response backend MAX_TOOL_ROUNDS query history tools (some tm)).2
      = firstRequest query history tools ::
        (toolLoop backend tm (firstRequest query history tools).system
          (firstRequest query history tools).tools MAX_TOOL_ROUNDS
          (firstRequest query history tools).messages (backend 0) 1).2 := by
    simp [generate_response, handleToolExecution, h 0]
  have hlen := toolLoop_trace_length backend tm (firstRequest query history tools).system
      (firstRequest query history tools).tools h MAX_TOOL_ROUNDS
      (firstRequest query history tools).messages (backend 0) 1
  refine ⟨by rw [hgr, List.length_cons, hlen], ?_⟩
  have hlen3 : (firstRequest query history tools ::
      (toolLoop backend tm (firstRequest query history tools).system
        (firstRequest query history tools).tools MAX_TOOL_ROUNDS
        (firstRequest query history tools).messages (backend 0) 1).2).length = 3 := by
    rw [List.length_cons, hlen]; rfl
  have hne : (toolLoop backend tm (firstRequest query history tools).system
      (firstRequest query history tools).tools MAX_TOOL_ROUNDS
      (firstRequest query history tools).messages (backend 0) 1).2 ≠ [] := by
    intro hnil
    rw [hnil] at hlen
    simp [MAX_TOOL_ROUNDS] at hlen
  have hget : (firstRequest query history tools ::
      (toolLoop backend tm (firstRequest query history tools).system
        (firstRequest query history tools).tools MAX_TOOL_ROUNDS
        (firstRequest query history tools).messages (backend 0) 1).2).get? MAX_TOOL_ROUNDS
      = (firstRequest query history tools ::
      (toolLoop backend tm (firstRequest query history tools).system
        (firstRequest query history tools).tools MAX_TOOL_ROUNDS
        (firstRequest query history tools).messages (backend 0) 1).2).getLast? :=
    get?_two_of_length_three hlen3
  rw [hgr, hget, getLast?_cons_of_ne_nil _ hne]
  exact toolLoop_trace_last backend tm (firstRequest query history tools).system
    (firstRequest query history tools).tools h MAX_TOOL_ROUNDS (by decide)
    (firstRequest query history tools).messages (backend 0) 1

/-- C1 witness: the concrete always-tool-use scenario of
`test_max_rounds_enforced`: three backend calls, the last without tools. -/
theorem claim_C1_max_rounds_budget_witness :
    (∀ i, (alwaysToolUseBackend i).stopReason = "tool_use")
    ∧ ((generate_response alwaysToolUseBackend MAX_TOOL_ROUNDS "Complex query" none
          (some toolCatalogDemo) (some okExecutor)).2.length = MAX_TOOL_ROUNDS + 1
       ∧ ((generate_response alwaysToolUseBackend MAX_TOOL_ROUNDS "Complex query" none
          (some toolCatalogDemo) (some okExecutor)).2.get? MAX_TOOL_ROUNDS).map
          Request.tools = some none) :=
  ⟨fun _ => rfl,
   claim_C1_max_rounds_budget alwaysToolUseBackend okExecutor (some toolCatalogDemo)
     "Complex query" none (fun _ => rfl)⟩

/-- C2: when some tool call of round 1 raises, every requested call of that
round still yields exactly one result entry, the failing call's entry is
error-tagged and carries the failure text, succeeding sibling calls keep
their results, the next backend call omits the tool catalog (with a
terminal next response, only 2 backend calls occur), and
`generate_response` still returns the final response's text instead of
propagating the exception. -/
theorem claim_C2_tool_error_isolated (backend : Nat → Response) (tm : ToolExecutor)
    (tools : Option (List ToolDef)) (query : String) (history : Option String)
    (id name : String) (input : List (String × String)) (e : String)
    (h0 : (backend 0).stopReason = "tool_use")
    (hmem : ContentBlock.toolUse id name input ∈ (backend 0).content)
    (herr : tm.executeTool name input = Except.error e)
    (h1 : (backend 1).stopReason ≠ "tool_use") :
    (executeToolCalls tm (backend 0).content).1.length
        = (backend 0).content.countP isToolUseBlock
    ∧ (⟨id, "Tool execution error: " ++ e, true⟩ : ToolResult)
        ∈ (executeToolCalls tm (backend 0).content).1
    ∧ (∀ (id2 name2 : String) (input2 : List (String × String)) (r : String),
        ContentBlock.toolUse id2 name2 input2 ∈ (backend 0).content →
        tm.executeTool name2 input2 = Except.ok r →
        (⟨id2, r, false⟩ : ToolResult) ∈ (executeToolCalls tm (backend 0).content).1)
    ∧ ((generate_response backend MAX_TOOL_ROUNDS query history tools (some tm)).2.get? 1).map
        Request.tools = some none
    ∧ (generate_response backend MAX_TOOL_ROUNDS query history tools (some tm)).1
        = Except.ok (extractTextFromResponse (backend 1))
    ∧ (generate_response backend MAX_TOOL_ROUNDS query history tools (some tm)).2.length
        = 2 := by
  obtain ⟨v, hv⟩ := Option.isSome_iff_exists.mp (executeToolCalls_error_isSome tm hmem herr)
  refine ⟨executeToolCalls_length tm _, ?_, ?_, ?_, ?_, ?_⟩
  · have hm := executeToolCalls_mem tm hmem
    rwa [resultEntry_error herr] at hm
  · intro id2 name2 input2 r hmem2 hok
    have hm := executeToolCalls_mem tm hmem2
    rwa [resultEntry_ok hok] at hm
  · simp [generate_response, handleToolExecution, toolLoop, MAX_TOOL_ROUNDS, h0, h1, hv,
      roundRequest]
  · simp [generate_response, handleToolExecution, toolLoop, MAX_TOOL_ROUNDS, h0, h1, hv,
      roundRequest]
  · simp [generate_response, handleToolExecution, toolLoop, MAX_TOOL_ROUNDS, h0, h1, hv,
      roundRequest]

/-- C2 witness: round 1 of `errRoundBackend` requests two calls; the search
call raises under `mixedExecutor`, yet the final text still comes back. -/
theorem claim_C2_tool_error_isolated_witness :
    (generate_response errRoundBackend MAX_TOOL_ROUNDS "Query" none (some toolCatalogDemo)
        (some mixedExecutor)).1 = Except.ok "Response after error" := by
  have h := claim_C2_tool_error_isolated errRoundBackend mixedExecutor
    (some toolCatalogDemo) "Query" none "t1" "search_course_content" [("query", "q1")]
    "Tool failed" rfl (by decide) rfl (by decide)
  exact h.2.2.2.2.1

/-- C3 counterexample: a terminal backend response with no content blocks on
the zero-round path — the claim demands empty text, but the code executes
`response.content[0].text` and raises IndexError instead of returning `""`. -/
theorem claim_C3_counterexample :
    (generate_response noTextBackend MAX_TOOL_ROUNDS "What is MCP?" none none none).1
        = Except.error "IndexError: list index out of range"
    ∧ ¬ (generate_response noTextBackend MAX_TOOL_ROUNDS "What is MCP?" none none none).1
        = Except.ok "" :=
  ⟨rfl, fun hc => Except.noConfusion hc⟩

/-- C3 (amended): after tool rounds the returned text is that of the first
text-bearing content block of the final response, or empty when none bears
text; on the zero-round path exactly one backend call is made and the
returned value is `response.content[0].text` — the first block's text when
that block bears text, while an empty content list or a non-text first
block raises instead of returning empty text. -/
theorem claim_C3_terminal_text (backend : Nat → Response) (tm : ToolExecutor)
    (query : String) (history : Option String) (tools : Option (List ToolDef)) :
    ((backend 0).stopReason ≠ "tool_use" →
      (generate_response backend MAX_TOOL_ROUNDS query history tools (some tm)).2.length = 1
      ∧ (generate_response backend MAX_TOOL_ROUNDS query history tools (some tm)).1
          = firstBlockText (backend 0)
      ∧ (∀ (s : String) (rest : List ContentBlock),
          (backend 0).content = ContentBlock.text s :: rest →
          (generate_response backend MAX_TOOL_ROUNDS query history tools (some tm)).1
            = Except.ok s)
      ∧ ((backend 0).content = [] →
          ∀ s, (generate_response backend MAX_TOOL_ROUNDS query history tools (some tm)).1
            ≠ Except.ok s)
      ∧ (∀ (i2 n2 : String) (inp2 : List (String × String)) (rest : List ContentBlock),
          (backend 0).content = ContentBlock.toolUse i2 n2 inp2 :: rest →
          ∀ s, (generate_response backend MAX_TOOL_ROUNDS query history tools (some tm)).1
            ≠ Except.ok s))
    ∧ ((backend 0).stopReason = "tool_use" → (backend 1).stopReason ≠ "tool_use" →
      (generate_response backend MAX_TOOL_ROUNDS query history tools (some tm)).1
          = Except.ok (extractTextFromResponse (backend 1))
      ∧ (∀ (pre : List ContentBlock) (s : String) (post : List ContentBlock),
          (backend 1).content = pre ++ ContentBlock.text s :: post →
          (∀ b ∈ pre, isTextBlock b = false) →
          (generate_response backend MAX_TOOL_ROUNDS query history tools (some tm)).1
            = Except.ok s)
      ∧ ((∀ b ∈ (backend 1).content, isTextBlock b = false) →
          (generate_response backend MAX_TOOL_ROUNDS query history tools (some tm)).1
            = Except.ok "")) := by
  constructor
  · intro h
    have hgr : generate_response backend MAX_TOOL_ROUNDS query history tools (some tm)
        = (firstBlockText (backend 0), [firstRequest query history tools]) := by
      simp [generate_response, h]
    refine ⟨by rw [hgr]; rfl, by rw [hgr], ?_, ?_, ?_⟩
    · intro s rest hc
      rw [hgr]
      simp [firstBlockText, hc]
    · intro hc s
      rw [hgr]
      simp [firstBlockText, hc]
    · intro i2 n2 inp2 rest hc s
      rw [hgr]
      simp [firstBlockText, hc]
  · intro h0 h1
    have hfst : (generate_response backend MAX_TOOL_ROUNDS query history tools (some tm)).1
        = Except.ok (extractTextFromResponse (backend 1)) := by
      have hl := toolLoop_fst_of_terminal backend tm (firstRequest query history tools).system
        (firstRequest query history tools).tools 1 (firstRequest query history tools).messages
        (backend 0) 1 h1
      simp only [generate_response, handleToolExecution, h0, if_pos]
      exact congrArg Except.ok hl
    refine ⟨hfst, ?_, ?_⟩
    · intro pre s post hc hpre
      rw [hfst]
      show Except.ok (extractText (backend 1).content) = Except.ok s
      rw [hc, extractText_first_text s post hpre]
    · intro hall
      rw [hfst]
      show Except.ok (extractText (backend 1).content) = Except.ok ""
      rw [extractText_all_non_text hall]

/-- C3 amended-claim witness: the plain direct-answer scenario of
`test_generate_response_returns_text`. -/
theorem claim_C3_terminal_text_witness :
    (textBackend 0).stopReason ≠ "tool_use"
    ∧ (generate_response textBackend MAX_TOOL_ROUNDS "What is 2+2?" none none
        (some okExecutor)).1 = Except.ok "Direct answer text" := by
  refine ⟨by decide, ?_⟩
  exact ((claim_C3_terminal_text textBackend okExecutor "What is 2+2?" none none).1
    (by decide)).2.2.1 "Direct answer text" [] rfl

/-- C7: when a conversation history is supplied, `generate_response` appends
the delimited "Previous conversation" section containing that history to
the system instructions and never to the user message — the sole user
message of the first call is exactly the query; without history the system
text is exactly the static system prompt. -/
theorem claim_C7_history_in_system_only (backend : Nat → Response) (maxRounds : Nat)
    (query hist : String) (tools : Option (List ToolDef)) (tmOpt : Option ToolExecutor)
    (hne : hist ≠ "") :
    ((generate_response backend maxRounds query (some hist) tools tmOpt).2.head?).map
        Request.system
      = some (SYSTEM_PROMPT ++ "\n\nPrevious conversation:\n" ++ hist)
    ∧ ((generate_response backend maxRounds query (some hist) tools tmOpt).2.head?).map
        Request.messages
      = some [⟨"user", MsgContent.str query⟩]
    ∧ ((generate_response backend maxRounds query none tools tmOpt).2.head?).map
        Request.system
      = some SYSTEM_PROMPT := by
  refine ⟨?_, ?_, ?_⟩ <;>
    simp [generate_response_trace_head, firstRequest, buildSystemContent, truthyStr, hne]

/-- C7 witness: the `TestAIGeneratorWithConversationHistory` scenario. -/
theorem claim_C7_history_in_system_only_witness :
    ("User: Previous question\nAssistant: Previous answer" ≠ "")
    ∧ ((generate_response textBackend MAX_TOOL_ROUNDS "Follow-up"
          (some "User: Previous question\nAssistant: Previous answer") none none).2.head?).map
        Request.system
      = some (SYSTEM_PROMPT ++ "\n\nPrevious conversation:\n"
          ++ "User: Previous question\nAssistant: Previous answer") := by
  refine ⟨by decide, ?_⟩
  exact (claim_C7_history_in_system_only textBackend MAX_TOOL_ROUNDS "Follow-up"
    "User: Previous question\nAssistant: Previous answer" none none (by decide)).1

/-- C10: a present-but-empty conversation history is treated exactly like an
absent one — the code branches on Python truthiness, not on `None`, so the
entire result (final text and full request trace, hence in particular the
system text) coincides with the no-history run. -/
theorem claim_C10_empty_history_like_none (backend : Nat → Response) (maxRounds : Nat)
    (query : String) (tools : Option (List ToolDef)) (tmOpt : Option ToolExecutor) :
    generate_response backend maxRounds query (some "") tools tmOpt
      = generate_response backend maxRounds query none tools tmOpt := rfl

/-! ## Claims about the retrieval engine, memory and registry -/

/-- C4: over any index state containing a document that matches the query, a
plain search with effective result cap 0 returns `is_empty() = true` with no
error even though matching content exists, while the same search over the
same data with cap 5 returns `is_empty() = false` and at least one returned
document contains the query term. -/
theorem claim_C4_zero_cap_boundary (vs : VectorStore) (query : String)
    (hmatch : ∃ c ∈ vs.chunks, containsSubstr c.document query = true) :
    (({ vs with maxResults := 0 }).search query none none none).is_empty = true
    ∧ (({ vs with maxResults := 0 }).search query none none none).error = none
    ∧ (({ vs with maxResults := 5 }).search query none none none).is_empty = false
    ∧ (∃ d ∈ (({ vs with maxResults := 5 }).search query none none none).documents,
        containsSubstr d query = true) := by
  obtain ⟨c, hc, hp⟩ := hmatch
  have hchits : c ∈ vs.chunks.filter (fun ch => containsSubstr ch.document query) :=
    List.mem_filter.mpr ⟨hc, hp⟩
  obtain ⟨h0, t, hht⟩ := List.exists_cons_of_ne_nil (List.ne_nil_of_mem hchits)
  have hsearch : (({ vs with maxResults := 5 } : VectorStore).search query none none
      none).documents
      = (((vs.chunks.filter fun ch => containsSubstr ch.document query)
          ++ vs.chunks.filter fun ch => !containsSubstr ch.document query).take 5).map
        Chunk.document := by
    simp [VectorStore.search, queryIndex, matchesFilter, build_filter, List.filter_true]
  have hmemtake : h0 ∈ ((vs.chunks.filter fun ch => containsSubstr ch.document query)
      ++ vs.chunks.filter fun ch => !containsSubstr ch.document query).take 5 := by
    rw [hht, List.cons_append]
    exact mem_take_cons_of_pos h0 _ (by norm_num)
  have hdocmem : h0.document ∈ (({ vs with maxResults := 5 } : VectorStore).search query
      none none none).documents := by
    rw [hsearch]
    exact List.mem_map_of_mem Chunk.document hmemtake
  have hprop : containsSubstr h0.document query = true := by
    have hm : h0 ∈ vs.chunks.filter fun ch => containsSubstr ch.document query := by
      rw [hht]
      exact List.mem_cons_self _ _
    exact (List.mem_filter.mp hm).2
  exact ⟨rfl, rfl, isEmpty_false_of_mem hdocmem, ⟨h0.document, hdocmem, hprop⟩⟩

/-- C4 witness: the `TestVectorStoreMaxResultsBug` scenario — one stored
document about Python, searched with `"Python"` under caps 0 and 5. -/
theorem claim_C4_zero_cap_boundary_witness :
    (∃ c ∈ testStore.chunks, containsSubstr c.document "Python" = true)
    ∧ ((({ testStore with maxResults := 0 }).search "Python" none none none).is_empty = true
       ∧ (({ testStore with maxResults := 0 }).search "Python" none none none).error = none
       ∧ (({ testStore with maxResults := 5 }).search "Python" none none none).is_empty
          = false
       ∧ (∃ d ∈ (({ testStore with maxResults := 5 }).search "Python" none none
            none).documents, containsSubstr d "Python" = true)) :=
  ⟨⟨testChunk, by decide, by decide⟩,
   claim_C4_zero_cap_boundary testStore "Python" ⟨testChunk, by decide, by decide⟩⟩

/-- C5: after every append the stored message count is at most
`2 × max_history`; the retained messages are always a suffix of the prior
messages followed by the appended one (the most recent, in original order);
and in the concrete `max_history = 2` scenario five exchanges leave exactly
`Q3, A3, Q4, A4`, so the history contains `Q3` and `A4` but no longer `Q0`
or `Q1`. -/
theorem claim_C5_history_bounded :
    (∀ (sm : SessionManager) (sid role content : String),
        (sessionMessages (sm.add_message sid role content) sid).length ≤ 2 * sm.maxHistory)
    ∧ (∀ (sm : SessionManager) (sid role content : String),
        sessionMessages (sm.add_message sid role content) sid
          <:+ sessionMessages sm sid ++ [⟨role, content⟩])
    ∧ sessionMessages demoSM.2 demoSM.1
        = [⟨"user", "Q3"⟩, ⟨"assistant", "A3"⟩, ⟨"user", "Q4"⟩, ⟨"assistant", "A4"⟩]
    ∧ demoSM.2.get_conversation_history demoSM.1
        = some "User: Q3\nAssistant: A3\nUser: Q4\nAssistant: A4" := by
  have hupd : ∀ (sm : SessionManager) (sid role content : String),
      (SessionManager.add_message sm sid role content).sessions sid
        = some (if 2 * sm.maxHistory
              < ((sm.sessions sid).getD [] ++ [(⟨role, content⟩ : Message)]).length
            then ((sm.sessions sid).getD [] ++ [(⟨role, content⟩ : Message)]).drop
              (((sm.sessions sid).getD [] ++ [(⟨role, content⟩ : Message)]).length
                - 2 * sm.maxHistory)
            else (sm.sessions sid).getD [] ++ [(⟨role, content⟩ : Message)]) := by
    intro sm sid role content
    simp [SessionManager.add_message]
  refine ⟨?_, ?_, by decide, by decide⟩
  · intro sm sid role content
    simp only [sessionMessages, hupd, Option.getD_some]
    split
    · rw [List.length_drop]
      omega
    · omega
  · intro sm sid role content
    simp only [sessionMessages, hupd, Option.getD_some]
    split
    · exact List.drop_suffix _ _
    · exact List.suffix_refl _

/-- C9: `get_conversation_history` returns `none` exactly for an unknown
session or one with no stored messages; otherwise it renders each stored
message as a capitalized `"Role: content"` line, in order, joined by
newlines — shown in general and on the fresh-session and exchange scenarios
of the tests. -/
theorem claim_C9_absent_marker :
    (∀ (sm : SessionManager) (sid : String),
        sm.get_conversation_history sid = none
          ↔ (sm.sessions sid = none ∨ sm.sessions sid = some []))
    ∧ (∀ (sm : SessionManager) (sid : String) (msgs : List Message),
        sm.sessions sid = some msgs → msgs ≠ [] →
        sm.get_conversation_history sid
          = some (String.intercalate "\n"
              (msgs.map fun m => m.role.capitalize ++ ": " ++ m.content)))
    ∧ (SessionManager.new 5).get_conversation_history "nonexistent" = none
    ∧ (((SessionManager.new 5).create_session.2).get_conversation_history
        (SessionManager.new 5).create_session.1) = none
    ∧ ((((SessionManager.new 5).create_session.2).add_exchange
          (SessionManager.new 5).create_session.1 "Q1" "A1").get_conversation_history
        (SessionManager.new 5).create_session.1)
        = some "User: Q1\nAssistant: A1" := by
  refine ⟨?_, ?_, by decide, by decide, by decide⟩
  · intro sm sid
    unfold SessionManager.get_conversation_history
    cases hs : sm.sessions sid with
    | none => simp
    | some msgs =>
      cases msgs with
      | nil => simp
      | cons m tl => simp
  · intro sm sid msgs hsm hne
    unfold SessionManager.get_conversation_history
    rw [hsm]
    cases msgs with
    | nil => cases hne rfl
    | cons m tl => rfl

/-- C9 witness: the rendering branch applied to the stored messages of the
five-exchange scenario. -/
theorem claim_C9_absent_marker_witness :
    demoSM.2.sessions demoSM.1
        = some [⟨"user", "Q3"⟩, ⟨"assistant", "A3"⟩, ⟨"user", "Q4"⟩, ⟨"assistant", "A4"⟩]
    ∧ demoSM.2.get_conversation_history demoSM.1
        = some (String.intercalate "\n"
            (([⟨"user", "Q3"⟩, ⟨"assistant", "A3"⟩, ⟨"user", "Q4"⟩,
                ⟨"assistant", "A4"⟩] : List Message).map
              fun m => m.role.capitalize ++ ": " ++ m.content)) := by
  refine ⟨by decide, ?_⟩
  exact claim_C9_absent_marker.2.1 demoSM.2 demoSM.1
    [⟨"user", "Q3"⟩, ⟨"assistant", "A3"⟩, ⟨"user", "Q4"⟩, ⟨"assistant", "A4"⟩]
    (by decide) (by decide)

/-- C8: filter construction — no filter when neither argument is given, a
single equality filter on the given field when exactly one is given, and a
logical `$and` containing exactly the two equality conditions when both are
given. -/
theorem claim_C8_filter_construction (c : String) (n : Int) :
    build_filter none none = none
    ∧ build_filter (some c) none
        = some (ChromaFilter.eq "course_title" (FilterValue.str c))
    ∧ build_filter none (some n)
        = some (ChromaFilter.eq "lesson_number" (FilterValue.num n))
    ∧ build_filter (some c) (some n)
        = some (ChromaFilter.and
            [ChromaFilter.eq "course_title" (FilterValue.str c),
             ChromaFilter.eq "lesson_number" (FilterValue.num n)]) :=
  ⟨rfl, rfl, rfl, rfl⟩

theorem reset_sources_buffers (tm : ToolManager) :
    ∀ t ∈ tm.reset_sources.tools, t.lastSources = [] := by
  intro t ht
  obtain ⟨t0, _, rfl⟩ := List.mem_map.mp ht
  rfl

theorem reset_sources_get_last (tm : ToolManager) :
    tm.reset_sources.get_last_sources = [] := by
  unfold ToolManager.get_last_sources
  cases hf : tm.reset_sources.tools.find? (fun t => !t.lastSources.isEmpty) with
  | none => rfl
  | some t => exact reset_sources_buffers tm t (List.mem_of_find?_eq_some hf)

theorem get_last_sources_cases (tm : ToolManager) :
    tm.get_last_sources = [] ∨ ∃ t ∈ tm.tools, tm.get_last_sources = t.lastSources := by
  unfold ToolManager.get_last_sources
  cases hf : tm.tools.find? (fun t => !t.lastSources.isEmpty) with
  | none => exact Or.inl rfl
  | some t => exact Or.inr ⟨t, List.mem_of_find?_eq_some hf, rfl⟩

theorem applyWrites_buffer_origin :
    ∀ (w : List (String × List Source)) (tm : ToolManager) (t : RegisteredTool),
      t ∈ (applyWrites tm w).tools →
      (∃ t0 ∈ tm.tools, t.lastSources = t0.lastSources) ∨ ∃ p ∈ w, t.lastSources = p.2 := by
  intro w
  induction w with
  | nil =>
    intro tm t ht
    exact Or.inl ⟨t, ht, rfl⟩
  | cons p rest ih =>
    intro tm t ht
    have ht' : t ∈ (applyWrites (tm.recordSources p.1 p.2) rest).tools := ht
    rcases ih (tm.recordSources p.1 p.2) t ht' with ⟨t0, ht0, heq⟩ | ⟨q, hq, heq⟩
    · obtain ⟨t1, ht1, hmap⟩ := List.mem_map.mp ht0
      by_cases hname : t1.name = p.1
      · refine Or.inr ⟨p, List.mem_cons_self _ _, ?_⟩
        rw [heq, ← hmap]
        simp [hname]
      · refine Or.inl ⟨t1, ht1, ?_⟩
        rw [heq, ← hmap]
        simp [hname]
    · exact Or.inr ⟨q, List.mem_cons_of_mem _ hq, heq⟩

/-- C6: after `reset_sources()` every registered tool's citation buffer is
empty and `get_last_sources()` returns the empty list; and because the
orchestrating caller resets once per top-level query after the answer is
extracted, every citation observed by a second, unrelated query originates
in that second query's own tool firings — never in the first query's. -/
theorem claim_C6_no_source_leak :
    (∀ tm : ToolManager,
        (∀ t ∈ tm.reset_sources.tools, t.lastSources = [])
        ∧ tm.reset_sources.get_last_sources = [])
    ∧ (∀ (tm : ToolManager) (w1 w2 : List (String × List Source)) (s : Source),
        s ∈ (runQuery (runQuery tm w1).2 w2).1 → ∃ p ∈ w2, s ∈ p.2) := by
  refine ⟨fun tm => ⟨reset_sources_buffers tm, reset_sources_get_last tm⟩, ?_⟩
  intro tm w1 w2 s hs
  have hs' : s ∈ (applyWrites ((applyWrites tm w1).reset_sources) w2).get_last_sources := hs
  rcases get_last_sources_cases (applyWrites ((applyWrites tm w1).reset_sources) w2) with
    hnone | ⟨t, htmem, heq⟩
  · rw [hnone] at hs'
    cases hs'
  · rw [heq] at hs'
    rcases applyWrites_buffer_origin w2 ((applyWrites tm w1).reset_sources) t htmem with
      ⟨t0, ht0, hbuf⟩ | ⟨p, hp, hbuf⟩
    · rw [hbuf, reset_sources_buffers _ t0 ht0] at hs'
      cases hs'
    · exact ⟨p, hp, by rwa [hbuf] at hs'⟩

/-- C6 witness: a first query leaves a stale citation in the search tool's
buffer; after the reset, a second query that fires the outline tool observes
only that query's own citation. -/
theorem claim_C6_no_source_leak_witness :
    freshSource ∈ (runQuery (runQuery registryDemo
        [("search_course_content", [⟨"Stale Source", none⟩])]).2
        [("get_course_outline", [freshSource])]).1
    ∧ ∃ p ∈ [("get_course_outline", [freshSource])], freshSource ∈ p.2 := by
  refine ⟨by decide, ?_⟩
  exact claim_C6_no_source_leak.2 registryDemo
    [("search_course_content", [⟨"Stale Source", none⟩])]
    [("get_course_outline", [freshSource])] freshSource (by decide)

end RagCore
